import Mathlib

set_option maxRecDepth 8000

/-
Verification development for process-dryad-email.py, a utility that
creates or updates a Jira curation issue from an automated Dryad email.
The script is embedded shallowly: text manipulation is modelled over
List Char, the Jira REST calls performed by a processing run are
modelled as an explicit trace (a list of JiraCall values), and Python
exceptions and assertion failures are modelled with Except.
-/

-- JIRA CUSTOM FIELD IDENTIFIERS (module-level constants of the script)

def dataset_name_field : String := "customfield_10394"

def doi_field : String := "customfield_10396"

def depositor_name_field : String := "customfield_10398"

def curation_status_field : String := "customfield_10403"

-- TEXT UTILITIES

/-- Character class stripped by the Python str.strip() method with no
arguments: the characters for which str.isspace() holds. -/
def isPyWhitespace (c : Char) : Bool :=
  c = ' ' || c = '\t' || c = '\n' || c = '\x0b' || c = '\x0c' || c = '\r'
  || c = '\x1c' || c = '\x1d' || c = '\x1e' || c = '\x1f'
  || c = '\x85' || c = '\xa0'
  || c = '\u1680'
  || (('\u2000' : Char) ≤ c && c ≤ '\u200a')
  || c = '\u2028' || c = '\u2029' || c = '\u202f' || c = '\u205f' || c = '\u3000'

/-- Embeds the Python expression s.strip(): removes leading and trailing
whitespace characters. -/
def pyStrip (cs : List Char) : List Char :=
  ((cs.dropWhile isPyWhitespace).reverse.dropWhile isPyWhitespace).reverse

/-- The Unicode line separator character U+2028, bound to the local
variable line_separator in text_to_adf_json. -/
def lineSeparator : Char := '\u2028'

/-- Embeds text.replace(line_separator, newline) from text_to_adf_json:
each occurrence of U+2028 becomes a newline. -/
def replaceLineSeparators (cs : List Char) : List Char :=
  cs.map (fun c => if c = lineSeparator then '\n' else c)

/-- Worker for splitNewlineRuns.  The flag records whether the scan is
currently inside a run of newlines that has already produced a split
boundary, so that a maximal run of newlines yields a single boundary,
exactly as the regular expression used by the script does. -/
def splitNewlineRunsAux : Bool → List Char → List (List Char)
  | _, [] => [[]]
  | skipping, c :: rest =>
    if c = '\n' then
      if skipping then splitNewlineRunsAux true rest
      else [] :: splitNewlineRunsAux true rest
    else
      match splitNewlineRunsAux false rest with
      | [] => [[c]]
      | p :: ps => (c :: p) :: ps

/-- Embeds the Python expression re.split of one-or-more newlines over a
text: the pieces between maximal runs of newline characters, keeping an
empty leading piece when the text starts with a newline and an empty
trailing piece when it ends with one. -/
def splitNewlineRuns (cs : List Char) : List (List Char) :=
  splitNewlineRunsAux false cs

-- ATLASSIAN DOCUMENT FORMAT (structure of the JSON built by text_to_adf_json)

structure AdfTextNode where
  nodeType : String
  text : String
deriving DecidableEq

structure AdfParagraph where
  nodeType : String
  content : List AdfTextNode
deriving DecidableEq

structure AdfDoc where
  version : Nat
  nodeType : String
  content : List AdfParagraph
deriving DecidableEq

/-- The list of pieces the script splits the (line-separator-normalized)
email text into inside text_to_adf_json. -/
def textBlocks (text : String) : List (List Char) :=
  splitNewlineRuns (replaceLineSeparators text.data)

/-- Embeds text_to_adf_json: converts text to Atlassian Document Format.
The Python list comprehension keeps the stripped form of each piece of
the split whenever the stripped form is non-empty. -/
def text_to_adf_json (text : String) : AdfDoc :=
  let paragraphs := ((textBlocks text).map pyStrip).filter (fun p => !p.isEmpty)
  { version := 1
    nodeType := "doc"
    content := paragraphs.map (fun p =>
      { nodeType := "paragraph"
        content := [{ nodeType := "text", text := String.mk p }] }) }

-- CURATION ISSUES AND THE DOI LOOKUP

/-- Embeds the CurationIssue named tuple.  The doi field is an Option
because the custom field of a Jira issue may be null. -/
structure CurationIssue where
  key : String
  status : String
  doi : Option String
deriving DecidableEq

/-- Embeds get_curation_issue_by_doi.  The issue set that the script
downloads from Jira via get_curation_issues is passed in explicitly as
the collaborator state.  The guard len greater than zero of the script
is the empty branch here, and the assertion len equal to one is the
two-or-more branch, which raises. -/
def get_curation_issue_by_doi (issues : List CurationIssue) (doi : String) :
    Except String (Option CurationIssue) :=
  match issues.filter (fun ci => ci.doi == some doi) with
  | [] => .ok none
  | [ci] => .ok (some ci)
  | _ :: _ :: _ => .error ("more than one curation issue matches DOI " ++ doi)

-- JIRA WRITE CALLS AS TRACE EVENTS

/-- Values placed in the field maps the script sends to Jira. -/
inductive FieldValue where
  | null
  | str (s : String)
  | keyObj (k : String)
  | nameObj (n : String)
  | valueObj (v : String)
  | doc (d : AdfDoc)
deriving DecidableEq

/-- One mutating Jira API call performed by a processing run:
issue creation, a workflow status transition, or a field update. -/
inductive JiraCall where
  | createIssue (fields : List (String × FieldValue))
  | transition (key : String) (newStatus : String)
  | updateFields (key : String) (fields : List (String × FieldValue))
deriving DecidableEq

/-- Embeds the payload built by create_curation_issue, field for field
in the order of the Python dict literal. -/
def create_curation_issue (email_text doi dataset_name depositor : String) : JiraCall :=
  JiraCall.createIssue
    [("project", FieldValue.keyObj "RDS"),
     ("issuetype", FieldValue.nameObj "Curation"),
     ("summary", FieldValue.str ("Dryad curation doi:" ++ doi)),
     ("description", FieldValue.doc (text_to_adf_json email_text)),
     (dataset_name_field, FieldValue.str dataset_name),
     (doi_field, FieldValue.str doi),
     (depositor_name_field, FieldValue.str depositor),
     (curation_status_field, FieldValue.valueObj "Submitted")]

-- CLASSIFICATION

/-- Embeds the Python substring test pat in text. -/
def containsSub (pat : List Char) : List Char → Bool
  | [] => pat.isEmpty
  | c :: rest => pat.isPrefixOf (c :: rest) || containsSub pat rest

/-- The marker dict of email_type, in insertion order. -/
def markers : List (String × String) :=
  [("submission",
    "Your data submission will soon be evaluated by a member of our curation team"),
   ("publication",
    "has been reviewed by our curation team and approved for publication."),
   ("peer_review",
    "you have selected to keep your Dryad data submission in \"Private for peer review\" status"),
   ("withdrawal",
    "Your data submission has been withdrawn")]

/-- Embeds email_type.  The assertion len at least one of the script is
the empty branch, the assertion len equal to one is the two-or-more
branch, and the single-match branch returns the matched type name. -/
def email_type (email_text : String) : Except String String :=
  match markers.filter (fun p => containsSub p.2.data email_text.data) with
  | [] => .error "unrecognized email message type"
  | [p] => .ok p.1
  | _ :: _ :: _ => .error "ambiguous email message type"

-- FIELD EXTRACTION (meaning of the regular expressions used by the script)

/-- Splits a text into its lines at each newline character; with the
multiline flag the anchored patterns of the script match within exactly
one such line. -/
def splitLines : List Char → List (List Char)
  | [] => [[]]
  | c :: rest =>
    match splitLines rest with
    | [] => [[c]]
    | p :: ps => if c = '\n' then [] :: p :: ps else (c :: p) :: ps

/-- Returns the capture of the first line on which the line matcher
succeeds, which is the leftmost match re.search finds for a pattern
anchored on both sides in multiline mode. -/
def firstLineMatch (f : List Char → Option (List Char)) : List (List Char) → Option (List Char)
  | [] => none
  | l :: ls =>
    match f l with
    | some cap => some cap
    | none => firstLineMatch f ls

/-- Meaning of the anchored pattern for the depositor name (the literal
word Dear, one or more spaces, a capture starting with a non-space and
ending just before a final comma) on one line: the line must read Dear,
then a maximal non-empty run of spaces, then the capture, then a comma
closing the line; the capture group is everything between the space run
and the final comma and must be non-empty. -/
def matchDepositorLine (line : List Char) : Option (List Char) :=
  if ("Dear".data).isPrefixOf line then
    let after := line.drop 4
    let rest := after.dropWhile (fun c => c = ' ')
    if (after.takeWhile (fun c => c = ' ')).isEmpty then none
    else
      match rest.reverse with
      | ',' :: r1 :: rrest => some (r1 :: rrest).reverse
      | _ => none
  else none

/-- The literal text preceding the capture group in the dataset name
pattern of parse_submission_email. -/
def datasetLinePrefix : List Char :=
  "Thank you for your submission to Dryad titled, \"".data

/-- Meaning of the anchored dataset name pattern on one line: the fixed
prefix, then a greedy capture that may be empty, then a closing double
quote and a period ending the line.  Because the pattern is anchored at
the line end the capture is exactly the line minus the prefix and the
final two characters. -/
def matchDatasetLine (line : List Char) : Option (List Char) :=
  if datasetLinePrefix.isPrefixOf line then
    match (line.drop datasetLinePrefix.length).reverse with
    | '.' :: '\"' :: xr => some xr.reverse
    | _ => none
  else none

/-- The character class of the DOI suffix in doi_re_pattern: digits,
ASCII letters, and the period. -/
def isDoiSuffixChar (c : Char) : Bool :=
  c.isDigit || c.isAlpha || c = '.'

/-- Meaning of the capture group of doi_re_pattern at a given position:
the literal one zero period, a maximal non-empty digit run, a slash, and
a maximal non-empty run of DOI suffix characters; the greedy runs are
forced because a shorter run would be followed by a character of the
same class. -/
def matchDoiAt : List Char → Option (List Char)
  | '1' :: '0' :: '.' :: rest =>
    if (rest.takeWhile Char.isDigit).isEmpty then none
    else
      match rest.dropWhile Char.isDigit with
      | [] => none
      | c :: r2 =>
        if c = '/' then
          if (r2.takeWhile isDoiSuffixChar).isEmpty then none
          else some ('1' :: '0' :: '.'
                     :: (rest.takeWhile Char.isDigit ++ '/' :: r2.takeWhile isDoiSuffixChar))
        else none
  | _ => none

/-- Tries the full DOI pattern at one position.  The literal context is
split in two around the period of doi.org in the pattern text, because
that period is an unescaped regex metacharacter matching any character
except a newline. -/
def tryDoiAt (pre1 pre2 : List Char) (cs : List Char) : Option (List Char) :=
  if pre1.isPrefixOf cs then
    match cs.drop pre1.length with
    | [] => none
    | c :: r =>
      if c = '\n' then none
      else if pre2.isPrefixOf r then matchDoiAt (r.drop pre2.length) else none
  else none

/-- Leftmost match of the unanchored DOI pattern: positions are tried
left to right, which is the search order of re.search. -/
def searchDoiPattern (pre1 pre2 : List Char) : List Char → Option (List Char)
  | [] => tryDoiAt pre1 pre2 []
  | c :: rest =>
    match tryDoiAt pre1 pre2 (c :: rest) with
    | some cap => some cap
    | none => searchDoiPattern pre1 pre2 rest

/-- Literal context of the DOI capture in parse_submission_email, up to
the unescaped period of doi.org. -/
def submissionDoiHead : List Char :=
  "A unique digital object identifier (DOI): https://doi".data

/-- Literal context of the DOI capture in parse_withdrawal_email, up to
the unescaped period of doi.org. -/
def withdrawalDoiHead : List Char :=
  "DOI: https://doi".data

/-- Literal context between the unescaped period of doi.org and the DOI
capture group. -/
def doiUrlTail : List Char := "org/".data

/-- Search function for the depositor name pattern over the whole text. -/
def depositorSearch (cs : List Char) : Option (List Char) :=
  firstLineMatch matchDepositorLine (splitLines cs)

/-- Search function for the dataset name pattern over the whole text. -/
def datasetSearch (cs : List Char) : Option (List Char) :=
  firstLineMatch matchDatasetLine (splitLines cs)

/-- Search function for the DOI pattern of parse_submission_email. -/
def submissionDoiSearch (cs : List Char) : Option (List Char) :=
  searchDoiPattern submissionDoiHead doiUrlTail cs

/-- Search function for the DOI pattern of parse_withdrawal_email. -/
def withdrawalDoiSearch (cs : List Char) : Option (List Char) :=
  searchDoiPattern withdrawalDoiHead doiUrlTail cs

/-- Embeds extract_field: the first capture group of the search,
stripped; a failed search raises a parse error naming the field. -/
def extract_field (email_text : String) (name : String)
    (search : List Char → Option (List Char)) : Except String String :=
  match search email_text.data with
  | some cap => .ok (String.mk (pyStrip cap))
  | none => .error ("parse error: unable to locate " ++ name)

/-- Embeds parse_submission_email: depositor name, dataset name and DOI
are extracted in program order, and the triple is returned in the order
DOI, dataset name, depositor. -/
def parse_submission_email (email_text : String) :
    Except String (String × String × String) :=
  match extract_field email_text "depositor name" depositorSearch with
  | .error e => .error e
  | .ok depositor =>
    match extract_field email_text "dataset name" datasetSearch with
    | .error e => .error e
    | .ok dataset_name =>
      match extract_field email_text "DOI" submissionDoiSearch with
      | .error e => .error e
      | .ok doi => .ok (doi, dataset_name, depositor)

/-- Embeds parse_withdrawal_email. -/
def parse_withdrawal_email (email_text : String) : Except String String :=
  extract_field email_text "DOI" withdrawalDoiSearch

-- MESSAGE PROCESSING (dispositions as traces of Jira write calls)

/-- Embeds process_submission_email, returning the trace of mutating
Jira calls the run performs. -/
def process_submission_email (issues : List CurationIssue) (email_text : String) :
    Except String (List JiraCall) :=
  match parse_submission_email email_text with
  | .error e => .error e
  | .ok (doi, dataset_name, depositor) =>
    match get_curation_issue_by_doi issues doi with
    | .error e => .error e
    | .ok (some ci) =>
      if ci.status = "Waiting on Peer Review" then
        .ok [JiraCall.transition ci.key "In Progress",
             JiraCall.transition ci.key "To Do",
             JiraCall.updateFields ci.key
               [("assignee", FieldValue.null),
                (curation_status_field, FieldValue.valueObj "Submitted")]]
      else
        .ok []
    | .ok none =>
      .ok [create_curation_issue email_text doi dataset_name depositor]

/-- Embeds process_withdrawal_email, returning the trace of mutating
Jira calls the run performs. -/
def process_withdrawal_email (issues : List CurationIssue) (email_text : String) :
    Except String (List JiraCall) :=
  match parse_withdrawal_email email_text with
  | .error e => .error e
  | .ok doi =>
    match get_curation_issue_by_doi issues doi with
    | .error e => .error e
    | .ok (some ci) =>
      if ci.status ≠ "Resolved" then
        .ok ((if ci.status ≠ "In Progress"
              then [JiraCall.transition ci.key "In Progress"]
              else [])
             ++ [JiraCall.transition ci.key "Resolved",
                 JiraCall.updateFields ci.key
                   [("resolution", FieldValue.nameObj "Won\x27t Do"),
                    (curation_status_field, FieldValue.valueObj "Withdrawn")]])
      else
        .ok []
    | .ok none => .ok []

/-- Embeds process_email: classify, then dispatch; every type other than
submission and withdrawal is ignored. -/
def process_email (issues : List CurationIssue) (email_text : String) :
    Except String (List JiraCall) :=
  match email_type email_text with
  | .error e => .error e
  | .ok t =>
    if t = "submission" then process_submission_email issues email_text
    else if t = "withdrawal" then process_withdrawal_email issues email_text
    else .ok []

/-- Running the DOI lookup twice against the same unchanged issue set,
as the idempotence property of the spec describes. -/
def get_curation_issue_by_doi_twice (issues : List CurationIssue) (doi : String) :
    Except String (Option CurationIssue) × Except String (Option CurationIssue) :=
  (get_curation_issue_by_doi issues doi, get_curation_issue_by_doi issues doi)

-- SPEC-SIDE DEFINITION FOR THE PARAGRAPH SPLITTING COMPARISON

/-- Prepends a character to the first piece of a split, starting a new
piece when there is none. -/
def consHead (c : Char) : List (List Char) → List (List Char)
  | [] => [[c]]
  | p :: ps => (c :: p) :: ps

/-- Worker for specBlankLineBlocks: splits at runs of two or more
newlines, keeping a single newline inside its block.  The fuel argument
only makes the recursion structural; any fuel at least the length of
the text gives the intended result. -/
def splitBlankLineRunsFuel : Nat → List Char → List (List Char)
  | 0, _ => [[]]
  | _ + 1, [] => [[]]
  | fuel + 1, '\n' :: '\n' :: rest =>
    [] :: splitBlankLineRunsFuel fuel (rest.dropWhile (fun c => c = '\n'))
  | fuel + 1, c :: rest => consHead c (splitBlankLineRunsFuel fuel rest)

/-- Follows the words of the spec, for comparison with the code: the
blocks of a text obtained by splitting the (line-separator-normalized)
body on blank-line boundaries only, so that a single newline stays
inside its block. -/
def specBlankLineBlocks (text : String) : List (List Char) :=
  let cs := replaceLineSeparators text.data
  splitBlankLineRunsFuel cs.length cs

-- CLAIM THEOREMS

/-- C9: the DOI-to-issue lookup is idempotent and deterministic: calling
it twice against an unchanged tracked-issue set returns the same result
both times.  In the embedding the lookup is a pure function of the issue
set and the DOI, so the two components of a double call coincide
definitionally. -/
theorem c9_lookup_idempotent (issues : List CurationIssue) (doi : String) :
    (get_curation_issue_by_doi_twice issues doi).1
      = (get_curation_issue_by_doi_twice issues doi).2 := rfl

/-- C4: for every DOI and tracked-issue set, the lookup returns the
single issue whose DOI field equals the target when exactly one matches,
returns none when no issue matches, and fails with an error when more
than one matches. -/
theorem c4_doi_lookup (issues : List CurationIssue) (doi : String) :
    (issues.filter (fun ci => ci.doi == some doi) = [] →
      get_curation_issue_by_doi issues doi = .ok none) ∧
    (∀ ci, issues.filter (fun c => c.doi == some doi) = [ci] →
      get_curation_issue_by_doi issues doi = .ok (some ci)) ∧
    (2 ≤ (issues.filter (fun c => c.doi == some doi)).length →
      get_curation_issue_by_doi issues doi
        = .error ("more than one curation issue matches DOI " ++ doi)) := by
  refine ⟨?_, ?_, ?_⟩
  · intro h
    unfold get_curation_issue_by_doi
    rw [h]
  · intro ci h
    unfold get_curation_issue_by_doi
    rw [h]
  · intro h
    unfold get_curation_issue_by_doi
    cases hl : issues.filter (fun ci => ci.doi == some doi) with
    | nil => rw [hl] at h; simp at h
    | cons a t =>
      cases t with
      | nil => rw [hl] at h; simp at h
      | cons b t2 => rfl

def c4Doi : String := "10.5061/dryad.q1"

def c4Issue : CurationIssue := { key := "RDS-11", status := "To Do", doi := some c4Doi }

def c4IssueDup : CurationIssue := { key := "RDS-12", status := "Submitted", doi := some c4Doi }

theorem c4_doi_lookup_witness :
    get_curation_issue_by_doi [] c4Doi = .ok none
    ∧ get_curation_issue_by_doi [c4Issue] c4Doi = .ok (some c4Issue)
    ∧ get_curation_issue_by_doi [c4Issue, c4IssueDup] c4Doi
        = .error ("more than one curation issue matches DOI " ++ c4Doi) :=
  ⟨(c4_doi_lookup [] c4Doi).1 (by rfl),
   (c4_doi_lookup [c4Issue] c4Doi).2.1 c4Issue (by decide),
   (c4_doi_lookup [c4Issue, c4IssueDup] c4Doi).2.2 (by decide)⟩

/-- C1: for a submission email whose parse succeeds, processing creates
exactly one issue (with curation-status Submitted among its fields) and
performs no transition when no issue matches the DOI; when the matching
issue is Waiting on Peer Review it performs exactly the transitions to
In Progress and then To Do followed by one field update clearing the
assignee and setting curation-status to Submitted; and for a matching
issue in any other status it performs no mutating call at all. -/
theorem c1_submission_dispositions (issues : List CurationIssue)
    (email_text doi dataset_name depositor : String)
    (hp : parse_submission_email email_text = .ok (doi, dataset_name, depositor)) :
    (get_curation_issue_by_doi issues doi = .ok none →
      process_submission_email issues email_text
          = .ok [create_curation_issue email_text doi dataset_name depositor]
        ∧ ∃ fields, create_curation_issue email_text doi dataset_name depositor
              = JiraCall.createIssue fields
            ∧ (curation_status_field, FieldValue.valueObj "Submitted") ∈ fields) ∧
    (∀ ci, get_curation_issue_by_doi issues doi = .ok (some ci) →
      (ci.status = "Waiting on Peer Review" →
        process_submission_email issues email_text
          = .ok [JiraCall.transition ci.key "In Progress",
                 JiraCall.transition ci.key "To Do",
                 JiraCall.updateFields ci.key
                   [("assignee", FieldValue.null),
                    (curation_status_field, FieldValue.valueObj "Submitted")]]) ∧
      (ci.status ≠ "Waiting on Peer Review" →
        process_submission_email issues email_text = .ok [])) := by
  constructor
  · intro hnone
    constructor
    · simp [process_submission_email, hp, hnone]
    · exact ⟨_, rfl, by simp [create_curation_issue]⟩
  · intro ci hsome
    constructor
    · intro hst
      simp [process_submission_email, hp, hsome, hst]
    · intro hst
      simp [process_submission_email, hp, hsome, hst]

def c1Email : String :=
  "Dear Jane Doe,\nThank you for your submission to Dryad titled, \"Some Dataset\".\nA unique digital object identifier (DOI): https://doi.org/10.5061/dryad.abc123\n"

def c1Doi : String := "10.5061/dryad.abc123"

def c1IssuePPR : CurationIssue :=
  { key := "RDS-7", status := "Waiting on Peer Review", doi := some c1Doi }

def c1IssueOther : CurationIssue :=
  { key := "RDS-8", status := "In Progress", doi := some c1Doi }

theorem c1_submission_dispositions_witness :
    parse_submission_email c1Email = .ok (c1Doi, "Some Dataset", "Jane Doe")
    ∧ process_submission_email [] c1Email
        = .ok [create_curation_issue c1Email c1Doi "Some Dataset" "Jane Doe"]
    ∧ process_submission_email [c1IssuePPR] c1Email
        = .ok [JiraCall.transition "RDS-7" "In Progress",
               JiraCall.transition "RDS-7" "To Do",
               JiraCall.updateFields "RDS-7"
                 [("assignee", FieldValue.null),
                  (curation_status_field, FieldValue.valueObj "Submitted")]]
    ∧ process_submission_email [c1IssueOther] c1Email = .ok [] := by
  refine ⟨by rfl, ?_, ?_, ?_⟩
  · exact ((c1_submission_dispositions [] c1Email c1Doi "Some Dataset" "Jane Doe"
      (by rfl)).1 (by rfl)).1
  · exact ((c1_submission_dispositions [c1IssuePPR] c1Email c1Doi "Some Dataset" "Jane Doe"
      (by rfl)).2 c1IssuePPR (by rfl)).1 (by rfl)
  · exact ((c1_submission_dispositions [c1IssueOther] c1Email c1Doi "Some Dataset" "Jane Doe"
      (by rfl)).2 c1IssueOther (by rfl)).2 (by decide)

/-- C2: for a withdrawal email with a matching issue, processing
performs the two transitions In Progress then Resolved when the status
is neither In Progress nor Resolved, and the single transition Resolved
when the status is In Progress; in both cases exactly one field update
follows, setting the resolution to Won x27t Do and curation-status to
Withdrawn. -/
theorem c2_withdrawal_dispositions (issues : List CurationIssue)
    (email_text doi : String) (ci : CurationIssue)
    (hp : parse_withdrawal_email email_text = .ok doi)
    (hci : get_curation_issue_by_doi issues doi = .ok (some ci)) :
    (ci.status ≠ "In Progress" → ci.status ≠ "Resolved" →
      process_withdrawal_email issues email_text
        = .ok [JiraCall.transition ci.key "In Progress",
               JiraCall.transition ci.key "Resolved",
               JiraCall.updateFields ci.key
                 [("resolution", FieldValue.nameObj "Won\x27t Do"),
                  (curation_status_field, FieldValue.valueObj "Withdrawn")]]) ∧
    (ci.status = "In Progress" →
      process_withdrawal_email issues email_text
        = .ok [JiraCall.transition ci.key "Resolved",
               JiraCall.updateFields ci.key
                 [("resolution", FieldValue.nameObj "Won\x27t Do"),
                  (curation_status_field, FieldValue.valueObj "Withdrawn")]]) := by
  constructor
  · intro h1 h2
    simp [process_withdrawal_email, hp, hci, h1, h2]
  · intro h1
    have h2 : ci.status ≠ "Resolved" := by rw [h1]; decide
    simp [process_withdrawal_email, hp, hci, h1, h2]

def c2Email : String := "Hello,\nDOI: https://doi.org/10.5061/dryad.xy9\nbye"

def c2Doi : String := "10.5061/dryad.xy9"

def c2IssueToDo : CurationIssue := { key := "RDS-2", status := "To Do", doi := some c2Doi }

def c2IssueInProgress : CurationIssue :=
  { key := "RDS-3", status := "In Progress", doi := some c2Doi }

theorem c2_withdrawal_dispositions_witness :
    parse_withdrawal_email c2Email = .ok c2Doi
    ∧ process_withdrawal_email [c2IssueToDo] c2Email
        = .ok [JiraCall.transition "RDS-2" "In Progress",
               JiraCall.transition "RDS-2" "Resolved",
               JiraCall.updateFields "RDS-2"
                 [("resolution", FieldValue.nameObj "Won\x27t Do"),
                  (curation_status_field, FieldValue.valueObj "Withdrawn")]]
    ∧ process_withdrawal_email [c2IssueInProgress] c2Email
        = .ok [JiraCall.transition "RDS-3" "Resolved",
               JiraCall.updateFields "RDS-3"
                 [("resolution", FieldValue.nameObj "Won\x27t Do"),
                  (curation_status_field, FieldValue.valueObj "Withdrawn")]] := by
  refine ⟨by rfl, ?_, ?_⟩
  · exact (c2_withdrawal_dispositions [c2IssueToDo] c2Email c2Doi c2IssueToDo
      (by rfl) (by rfl)).1 (by decide) (by decide)
  · exact (c2_withdrawal_dispositions [c2IssueInProgress] c2Email c2Doi c2IssueInProgress
      (by rfl) (by rfl)).2 (by rfl)

/-- C8: every no-op branch performs no mutating Jira call: a withdrawal
email whose matching issue is already Resolved, a withdrawal email with
no matching issue, and any classified type other than submission and
withdrawal all produce an empty call trace. -/
theorem c8_noop_dispositions (issues : List CurationIssue) :
    (∀ email_text doi ci, parse_withdrawal_email email_text = .ok doi →
      get_curation_issue_by_doi issues doi = .ok (some ci) →
      ci.status = "Resolved" →
      process_withdrawal_email issues email_text = .ok []) ∧
    (∀ email_text doi, parse_withdrawal_email email_text = .ok doi →
      get_curation_issue_by_doi issues doi = .ok none →
      process_withdrawal_email issues email_text = .ok []) ∧
    (∀ email_text t, email_type email_text = .ok t →
      t ≠ "submission" → t ≠ "withdrawal" →
      process_email issues email_text = .ok []) := by
  refine ⟨?_, ?_, ?_⟩
  · intro email_text doi ci hp hci hst
    simp [process_withdrawal_email, hp, hci, hst]
  · intro email_text doi hp hci
    simp [process_withdrawal_email, hp, hci]
  · intro email_text t ht h1 h2
    simp [process_email, ht, h1, h2]

def c8Email : String := "Notice\nDOI: https://doi.org/10.5061/dryad.zz1\nend"

def c8IssueResolved : CurationIssue :=
  { key := "RDS-4", status := "Resolved", doi := some "10.5061/dryad.zz1" }

def c8PubEmail : String :=
  "Your submission has been reviewed by our curation team and approved for publication. Congratulations."

theorem c8_noop_dispositions_witness :
    process_withdrawal_email [c8IssueResolved] c8Email = .ok []
    ∧ process_withdrawal_email [] c8Email = .ok []
    ∧ email_type c8PubEmail = .ok "publication"
    ∧ process_email [] c8PubEmail = .ok [] := by
  refine ⟨?_, ?_, by rfl, ?_⟩
  · exact (c8_noop_dispositions [c8IssueResolved]).1 c8Email "10.5061/dryad.zz1"
      c8IssueResolved (by rfl) (by rfl) (by rfl)
  · exact (c8_noop_dispositions []).2.1 c8Email "10.5061/dryad.zz1" (by rfl) (by rfl)
  · exact (c8_noop_dispositions []).2.2 c8PubEmail "publication" (by rfl)
      (by decide) (by decide)

-- CLASSIFIER HELPERS

/-- A list holding two distinct members has length at least two. -/
theorem two_le_length_of_mem_of_mem {α : Type} {p q : α} {l : List α}
    (hp : p ∈ l) (hq : q ∈ l) (hne : p ≠ q) : 2 ≤ l.length := by
  match l with
  | [] => exact absurd hp (by simp)
  | [a] =>
    simp at hp hq
    exact absurd (hp.trans hq.symm) hne
  | a :: b :: t => exact Nat.le_add_left 2 t.length

/-- Filtering a duplicate-free list whose predicate holds at exactly one
member yields that single member. -/
theorem filter_eq_singleton_of_unique {α : Type} {l : List α} {p : α} {f : α → Bool}
    (hnd : l.Nodup) (hp : p ∈ l) (hfp : f p = true)
    (hothers : ∀ q ∈ l, q ≠ p → f q = false) : l.filter f = [p] := by
  induction l with
  | nil => cases hp
  | cons a t ih =>
    rw [List.nodup_cons] at hnd
    rcases List.mem_cons.mp hp with rfl | hpt
    · rw [List.filter_cons_of_pos hfp]
      have ht : t.filter f = [] := by
        rw [List.filter_eq_nil_iff]
        intro x hx
        have hxp : x ≠ p := fun he => hnd.1 (he ▸ hx)
        simp [hothers x (List.mem_cons_of_mem p hx) hxp]
      rw [ht]
    · have hap : a ≠ p := fun he => hnd.1 (he ▸ hpt)
      rw [List.filter_cons_of_neg (by simp [hothers a (List.mem_cons_self a t) hap])]
      exact ih hnd.2 hpt (fun q hq hqp => hothers q (List.mem_cons_of_mem a hq) hqp)

/-- C3: for every raw email text, if exactly one of the fixed marker
phrases occurs as a substring the classifier returns the corresponding
type; if no marker occurs, or two different markers occur, it fails
with an error. -/
theorem c3_classifier (text : String) :
    (∀ p, p ∈ markers → containsSub p.2.data text.data = true →
      (∀ q, q ∈ markers → q ≠ p → containsSub q.2.data text.data = false) →
      email_type text = .ok p.1) ∧
    ((∀ q, q ∈ markers → containsSub q.2.data text.data = false) →
      email_type text = .error "unrecognized email message type") ∧
    (∀ p q, p ∈ markers → q ∈ markers → p ≠ q →
      containsSub p.2.data text.data = true → containsSub q.2.data text.data = true →
      email_type text = .error "ambiguous email message type") := by
  refine ⟨?_, ?_, ?_⟩
  · intro p hp hfp hothers
    have hnd : markers.Nodup := by decide
    have hone : markers.filter (fun r => containsSub r.2.data text.data) = [p] :=
      filter_eq_singleton_of_unique hnd hp hfp (fun q hq hne => hothers q hq hne)
    unfold email_type
    rw [hone]
  · intro hall
    have hnil : markers.filter (fun r => containsSub r.2.data text.data) = [] :=
      List.filter_eq_nil_iff.mpr (fun q hq => by simp [hall q hq])
    unfold email_type
    rw [hnil]
  · intro p q hp hq hne hfp hfq
    have hpf : p ∈ markers.filter (fun r => containsSub r.2.data text.data) :=
      List.mem_filter.mpr ⟨hp, hfp⟩
    have hqf : q ∈ markers.filter (fun r => containsSub r.2.data text.data) :=
      List.mem_filter.mpr ⟨hq, hfq⟩
    have h2 := two_le_length_of_mem_of_mem hpf hqf hne
    unfold email_type
    cases hl : markers.filter (fun r => containsSub r.2.data text.data) with
    | nil => rw [hl] at h2; simp at h2
    | cons a t =>
      cases t with
      | nil => rw [hl] at h2; simp at h2
      | cons b t2 => rfl

def c3Text : String :=
  "Hello. Your data submission will soon be evaluated by a member of our curation team. Bye."

theorem c3_classifier_witness :
    containsSub
      ("Your data submission will soon be evaluated by a member of our curation team" : String).data
      c3Text.data = true
    ∧ email_type c3Text = .ok "submission" := by
  refine ⟨by decide, ?_⟩
  exact (c3_classifier c3Text).1
    ("submission",
     "Your data submission will soon be evaluated by a member of our curation team")
    (by decide) (by decide) (by decide)

-- PARAGRAPH SPLITTING HELPERS

/-- Every character of every piece of the newline-run split occurs in
the split text. -/
theorem mem_of_mem_splitNewlineRunsAux {c : Char} :
    ∀ (cs : List Char) (b : Bool) (p : List Char),
      p ∈ splitNewlineRunsAux b cs → c ∈ p → c ∈ cs := by
  intro cs
  induction cs with
  | nil =>
    intro b p hp hc
    simp only [splitNewlineRunsAux] at hp
    simp at hp
    subst hp
    cases hc
  | cons a rest ih =>
    intro b p hp hc
    simp only [splitNewlineRunsAux] at hp
    by_cases ha : a = '\n'
    · rw [if_pos ha] at hp
      cases b with
      | true => exact List.mem_cons_of_mem _ (ih true p hp hc)
      | false =>
        rcases List.mem_cons.mp hp with rfl | hp2
        · cases hc
        · exact List.mem_cons_of_mem _ (ih true p hp2 hc)
    · rw [if_neg ha] at hp
      cases hl : splitNewlineRunsAux false rest with
      | nil =>
        rw [hl] at hp
        simp at hp
        subst hp
        simp at hc
        subst hc
        exact List.mem_cons_self _ _
      | cons q qs =>
        rw [hl] at hp
        rcases List.mem_cons.mp hp with rfl | hp2
        · rcases List.mem_cons.mp hc with rfl | hcq
          · exact List.mem_cons_self _ _
          · have hq : q ∈ splitNewlineRunsAux false rest := hl ▸ List.mem_cons_self q qs
            exact List.mem_cons_of_mem _ (ih false q hq hcq)
        · have hp3 : p ∈ splitNewlineRunsAux false rest := hl ▸ List.mem_cons_of_mem q hp2
          exact List.mem_cons_of_mem _ (ih false p hp3 hc)

/-- Stripping only removes characters: the stripped text is a subset of
the original. -/
theorem pyStrip_subset (cs : List Char) : pyStrip cs ⊆ cs := by
  intro c hc
  unfold pyStrip at hc
  rw [List.mem_reverse] at hc
  have h1 := (List.dropWhile_sublist isPyWhitespace).subset hc
  rw [List.mem_reverse] at h1
  exact (List.dropWhile_sublist isPyWhitespace).subset h1

/-- After the replacement step no line separator character remains. -/
theorem lineSeparator_not_mem_replace (cs : List Char) :
    lineSeparator ∉ replaceLineSeparators cs := by
  intro h
  obtain ⟨d, hd, hde⟩ := List.mem_map.mp h
  by_cases hc : d = lineSeparator
  · rw [if_pos hc] at hde
    exact absurd hde (by decide)
  · rw [if_neg hc] at hde
    exact hc hde

/-- The replacement step is idempotent. -/
theorem replaceLineSeparators_idem (cs : List Char) :
    replaceLineSeparators (replaceLineSeparators cs) = replaceLineSeparators cs := by
  unfold replaceLineSeparators
  rw [List.map_map]
  congr 1
  funext c
  by_cases h : c = lineSeparator
  · subst h
    simp [Function.comp]
  · simp [Function.comp, h]

/-- C5 amended: the paragraph count of the converted document equals the
number of pieces of the newline-run split whose trimmed text is
non-empty, and the paragraphs are exactly those pieces, trimmed, in
order.  In particular a single newline already separates two pieces; a
blank line is not required. -/
theorem c5_paragraphs_amended (text : String) :
    (text_to_adf_json text).content.length
        = (textBlocks text).countP (fun b => !(pyStrip b).isEmpty) ∧
    (text_to_adf_json text).content
        = ((textBlocks text).filter (fun b => !(pyStrip b).isEmpty)).map
            (fun b => { nodeType := "paragraph",
                        content := [{ nodeType := "text",
                                      text := String.mk (pyStrip b) }] }) := by
  have hcontent : (text_to_adf_json text).content
      = (((textBlocks text).map pyStrip).filter (fun p => !p.isEmpty)).map
          (fun p => ({ nodeType := "paragraph",
                       content := [{ nodeType := "text",
                                     text := String.mk p }] } : AdfParagraph)) := rfl
  have hfm : ((textBlocks text).map pyStrip).filter (fun p => !p.isEmpty)
      = ((textBlocks text).filter (fun b => !(pyStrip b).isEmpty)).map pyStrip := by
    rw [List.filter_map]
    rfl
  constructor
  · rw [hcontent, hfm, List.length_map, List.length_map, List.countP_eq_length_filter]
  · rw [hcontent, hfm, List.map_map]
    rfl

def c5Text : String := "First line\nsecond line\n\nNew block"

/-- C5 counterexample: on a text whose blank-line-separated body has two
non-empty blocks, the first containing an internal single newline, the
conversion produces three paragraphs, not two: the code splits at every
newline run, not only at blank-line boundaries. -/
theorem c5_blankline_counterexample :
    (text_to_adf_json c5Text).content.map (fun p => p.content.map (fun n => n.text))
        = [["First line"], ["second line"], ["New block"]]
    ∧ (specBlankLineBlocks c5Text).map (fun b => String.mk (pyStrip b))
        = ["First line\nsecond line", "New block"]
    ∧ (text_to_adf_json c5Text).content.length = 3
    ∧ ((specBlankLineBlocks c5Text).filter (fun b => !(pyStrip b).isEmpty)).length = 2
    ∧ (text_to_adf_json c5Text).content.length
        ≠ ((specBlankLineBlocks c5Text).filter (fun b => !(pyStrip b).isEmpty)).length := by
  refine ⟨by decide, by decide, by decide, by decide, by decide⟩

/-- C10: the conversion first replaces every U+2028 line separator with
a newline, so converting a text and converting its normalized form give
the same document, and no output paragraph text contains U+2028. -/
theorem c10_line_separator (text : String) :
    text_to_adf_json text
        = text_to_adf_json (String.mk (replaceLineSeparators text.data))
    ∧ ∀ para ∈ (text_to_adf_json text).content, ∀ node ∈ para.content,
        lineSeparator ∉ node.text.data := by
  constructor
  · have hblocks : textBlocks (String.mk (replaceLineSeparators text.data)) = textBlocks text := by
      unfold textBlocks
      exact congrArg splitNewlineRuns (replaceLineSeparators_idem text.data)
    unfold text_to_adf_json
    rw [hblocks]
  · intro para hpara node hnode
    have hcontent : (text_to_adf_json text).content
        = (((textBlocks text).map pyStrip).filter (fun p => !p.isEmpty)).map
            (fun p => ({ nodeType := "paragraph",
                         content := [{ nodeType := "text",
                                       text := String.mk p }] } : AdfParagraph)) := rfl
    rw [hcontent] at hpara
    obtain ⟨p, hpmem, rfl⟩ := List.mem_map.mp hpara
    have hnd : node = { nodeType := "text", text := String.mk p } := by
      simpa using hnode
    subst hnd
    intro hmem
    have hp2 : lineSeparator ∈ p := hmem
    have hpf := List.mem_filter.mp hpmem
    obtain ⟨b, hb, rfl⟩ := List.mem_map.mp hpf.1
    have hb2 : lineSeparator ∈ b := pyStrip_subset b hp2
    have hrep : lineSeparator ∈ replaceLineSeparators text.data :=
      mem_of_mem_splitNewlineRunsAux (replaceLineSeparators text.data) false b hb hb2
    exact lineSeparator_not_mem_replace text.data hrep

def c10Text : String := "alpha beta\n\ngamma"

def c10Node : AdfTextNode := { nodeType := "text", text := "alpha" }

def c10Para : AdfParagraph := { nodeType := "paragraph", content := [c10Node] }

theorem c10_line_separator_witness :
    text_to_adf_json c10Text
        = text_to_adf_json (String.mk (replaceLineSeparators c10Text.data))
    ∧ c10Para ∈ (text_to_adf_json c10Text).content
    ∧ lineSeparator ∉ c10Node.text.data :=
  ⟨(c10_line_separator c10Text).1,
   by decide,
   (c10_line_separator c10Text).2 c10Para (by decide) c10Node (by decide)⟩

-- EXTRACTION HELPERS

/-- A successful DOI pattern match at a position yields a capture that
starts with the digit one. -/
theorem matchDoiAt_shape {cs cap : List Char} (h : matchDoiAt cs = some cap) :
    ∃ t, cap = '1' :: t := by
  unfold matchDoiAt at h
  split at h
  next rest =>
    by_cases h1 : (rest.takeWhile Char.isDigit).isEmpty
    · rw [if_pos h1] at h
      cases h
    · rw [if_neg h1] at h
      cases hd : rest.dropWhile Char.isDigit with
      | nil => rw [hd] at h; cases h
      | cons a r2 =>
        rw [hd] at h
        dsimp only at h
        by_cases ha : a = '/'
        · rw [if_pos ha] at h
          by_cases h2 : (r2.takeWhile isDoiSuffixChar).isEmpty
          · rw [if_pos h2] at h
            cases h
          · rw [if_neg h2] at h
            exact ⟨_, (Option.some.inj h).symm⟩
        · rw [if_neg ha] at h
          cases h
  next =>
    cases h

/-- A successful DOI pattern attempt yields a capture that starts with
the digit one. -/
theorem tryDoiAt_shape {pre1 pre2 cs cap : List Char}
    (h : tryDoiAt pre1 pre2 cs = some cap) : ∃ t, cap = '1' :: t := by
  unfold tryDoiAt at h
  split at h
  · split at h
    · exact absurd h (by simp)
    · split at h
      · exact absurd h (by simp)
      · split at h
        · exact matchDoiAt_shape h
        · exact absurd h (by simp)
  · exact absurd h (by simp)

/-- A successful DOI pattern search yields a capture that starts with
the digit one. -/
theorem searchDoiPattern_shape {pre1 pre2 : List Char} :
    ∀ {cs cap : List Char}, searchDoiPattern pre1 pre2 cs = some cap →
      ∃ t, cap = '1' :: t := by
  intro cs
  induction cs with
  | nil =>
    intro cap h
    exact tryDoiAt_shape h
  | cons c rest ih =>
    intro cap h
    unfold searchDoiPattern at h
    cases htry : tryDoiAt pre1 pre2 (c :: rest) with
    | some cap2 =>
      rw [htry] at h
      exact (Option.some.inj h) ▸ tryDoiAt_shape htry
    | none =>
      rw [htry] at h
      exact ih h

/-- An element on which the predicate fails survives dropWhile. -/
theorem mem_dropWhile_of_not {α : Type} {p : α → Bool} :
    ∀ {cs : List α} {c : α}, c ∈ cs → p c = false → c ∈ cs.dropWhile p := by
  intro cs
  induction cs with
  | nil => intro c h hp; cases h
  | cons a t ih =>
    intro c hc hp
    by_cases hpa : p a = true
    · rw [List.dropWhile_cons, if_pos hpa]
      rcases List.mem_cons.mp hc with rfl | h2
      · rw [hp] at hpa; cases hpa
      · exact ih h2 hp
    · rw [List.dropWhile_cons, if_neg hpa]
      exact hc

/-- A text with a non-whitespace character does not strip to the empty
text. -/
theorem pyStrip_ne_nil {cs : List Char} {c : Char}
    (hc : c ∈ cs) (hw : isPyWhitespace c = false) : pyStrip cs ≠ [] := by
  unfold pyStrip
  intro h
  rw [List.reverse_eq_nil_iff] at h
  have h1 : c ∈ (cs.dropWhile isPyWhitespace).reverse :=
    List.mem_reverse.mpr (mem_dropWhile_of_not hc hw)
  have h2 := mem_dropWhile_of_not h1 hw
  rw [h] at h2
  cases h2

/-- Inversion for a successful field extraction: the search succeeded
and the result is the stripped capture. -/
theorem extract_field_ok {email_text name : String}
    {search : List Char → Option (List Char)} {v : String}
    (h : extract_field email_text name search = .ok v) :
    ∃ cap, search email_text.data = some cap ∧ v = String.mk (pyStrip cap) := by
  unfold extract_field at h
  cases hs : search email_text.data with
  | some cap =>
    rw [hs] at h
    exact ⟨cap, rfl, (Except.ok.inj h).symm⟩
  | none =>
    rw [hs] at h
    cases h

/-- The result of the embedded capture-and-strip is non-empty whenever
the capture starts with the digit one. -/
theorem string_of_doi_capture_ne_empty {t : List Char} :
    String.mk (pyStrip ('1' :: t)) ≠ "" := by
  intro h0
  apply pyStrip_ne_nil (List.mem_cons_self '1' t) (by decide)
  have hd := congrArg String.data h0
  simpa using hd

/-- C6 amended: a successfully extracted DOI is always a non-empty
string, and a required field whose pattern does not match makes
extraction fail with a fatal parse error naming the field; the
depositor name and dataset name, however, are trimmed captures that the
patterns allow to be empty. -/
theorem c6_field_extraction_amended :
    (∀ email_text doi dataset_name depositor,
      parse_submission_email email_text = .ok (doi, dataset_name, depositor) →
      doi ≠ "") ∧
    (∀ email_text doi,
      parse_withdrawal_email email_text = .ok doi → doi ≠ "") ∧
    (∀ email_text name search, search email_text.data = none →
      extract_field email_text name search
        = .error ("parse error: unable to locate " ++ name)) ∧
    (∀ email_text, depositorSearch email_text.data = none →
      parse_submission_email email_text
        = .error "parse error: unable to locate depositor name") := by
  refine ⟨?_, ?_, ?_, ?_⟩
  · intro email_text doi dataset_name depositor h
    unfold parse_submission_email at h
    cases h1 : extract_field email_text "depositor name" depositorSearch with
    | error e => rw [h1] at h; cases h
    | ok dep2 =>
      rw [h1] at h
      cases h2 : extract_field email_text "dataset name" datasetSearch with
      | error e => rw [h2] at h; cases h
      | ok dn2 =>
        rw [h2] at h
        cases h3 : extract_field email_text "DOI" submissionDoiSearch with
        | error e => rw [h3] at h; cases h
        | ok doi2 =>
          rw [h3] at h
          have hdoi : doi = doi2 := by
            have := Except.ok.inj h
            exact (congrArg Prod.fst this).symm
          obtain ⟨cap, hcap, hv⟩ := extract_field_ok h3
          obtain ⟨t, rfl⟩ := searchDoiPattern_shape hcap
          rw [hdoi, hv]
          exact string_of_doi_capture_ne_empty
  · intro email_text doi h
    unfold parse_withdrawal_email at h
    obtain ⟨cap, hcap, hv⟩ := extract_field_ok h
    obtain ⟨t, rfl⟩ := searchDoiPattern_shape hcap
    rw [hv]
    exact string_of_doi_capture_ne_empty
  · intro email_text name search h
    unfold extract_field
    rw [h]
  · intro email_text h
    unfold parse_submission_email extract_field
    rw [h]
    rfl

def c6Email : String :=
  "Dear Ann Li,\nThank you for your submission to Dryad titled, \"Corals\".\nA unique digital object identifier (DOI): https://doi.org/10.5061/dryad.k77\n"

def c6NoFieldEmail : String := "no recognizable fields at all"

theorem c6_field_extraction_amended_witness :
    parse_submission_email c6Email = .ok ("10.5061/dryad.k77", "Corals", "Ann Li")
    ∧ ("10.5061/dryad.k77" : String) ≠ ""
    ∧ depositorSearch c6NoFieldEmail.data = none
    ∧ parse_submission_email c6NoFieldEmail
        = .error "parse error: unable to locate depositor name" := by
  refine ⟨by rfl, ?_, by rfl, ?_⟩
  · exact c6_field_extraction_amended.1 c6Email "10.5061/dryad.k77" "Corals" "Ann Li"
      (by rfl)
  · exact c6_field_extraction_amended.2.2.2 c6NoFieldEmail (by rfl)

def c6CexEmail : String :=
  "Dear \t,\nThank you for your submission to Dryad titled, \"\".\nA unique digital object identifier (DOI): https://doi.org/10.5061/dryad.abc123\n"

/-- C6 counterexample: on a template-shaped email whose greeting names
only a tab character and whose title is the empty quoted string, parsing
succeeds and returns an empty depositor name and an empty dataset name,
refuting the claim that every extracted field value is non-empty. -/
theorem c6_empty_fields_counterexample :
    parse_submission_email c6CexEmail = .ok ("10.5061/dryad.abc123", "", "") := by
  rfl

def c7Email : String :=
  "Dear Jane Doe,\nThank you for your submission to Dryad titled, \"Some Study\".\nA unique digital object identifier (DOI): https://doi.org/10.5061/dryad.abc123\nRegards"

/-- C7: on a well-formed submission email matching the expected template
and containing the literal greeting line for Jane Doe and the literal
DOI line of the claim, extraction returns exactly the depositor Jane Doe
and the DOI 10.5061 slash dryad.abc123, along with the quoted dataset
title. -/
theorem c7_template_extraction :
    parse_submission_email c7Email
      = .ok ("10.5061/dryad.abc123", "Some Study", "Jane Doe") := by
  rfl
